import Mathlib

/-!
Shallow embedding of the `advanced_video_generator` pipeline
(script segmentation, TTS coordination with caching and fallback,
image placeholder generation, video-chunk assembly, enhancement chain,
and the orchestration in `main.py`), together with theorems settling
the specification claims.

Conventions of the embedding:
* Python strings are Lean `String`s (ASCII scripts; Python's `\w`/`\s`
  character classes are modelled over ASCII).
* Python floats carrying scene durations are modelled as `ℚ` (exact
  arithmetic; the code only adds, divides and compares them).
* Fallible external backends (TTS engines, the diffusion pipeline,
  video assembly, merge) are modelled by boolean success oracles,
  matching the spec's view of them as opaque fallible services.
* A function returning `bool` success plus a written file is modelled
  as returning the artifact value (`Option`/record) directly.
-/

namespace AVG

/-! ## Script segmenter (`script_processor.py`) -/

/-- Python's `\s` class over ASCII: space, tab, newline, carriage return,
vertical tab, form feed. -/
def isPySpace (c : Char) : Bool :=
  c = ' ' || c = '\t' || c = '\n' || c = '\r' || c = '\x0b' || c = '\x0c'

/-- Python's `\w` class over ASCII: alphanumerics and underscore. -/
def isWordChar (c : Char) : Bool :=
  c.isAlphanum || c = '_'

/-- Punctuation kept by `_clean_script`'s allow-list `[^\w\s.,!?;:'"-]`. -/
def isKeptPunct (c : Char) : Bool :=
  c = '.' || c = ',' || c = '!' || c = '?' || c = ';' || c = ':' ||
  c = '\'' || c = '"' || c = '-'

/-- `re.sub(r'\s+', ' ', text)`: every maximal whitespace run becomes a
single space.  The flag records whether the previous character was part
of a whitespace run. -/
def collapseWsGo (prevSpace : Bool) : List Char → List Char
  | [] => []
  | c :: cs =>
    if isPySpace c then
      if prevSpace then collapseWsGo true cs
      else ' ' :: collapseWsGo true cs
    else c :: collapseWsGo false cs

def collapseWs (l : List Char) : List Char := collapseWsGo false l

/-- Python `str.strip()` on both ends. -/
def stripChars (l : List Char) : List Char :=
  ((l.dropWhile isPySpace).reverse.dropWhile isPySpace).reverse

/-- `ScriptProcessor._clean_script`: collapse whitespace, drop characters
outside the allow-list, strip. -/
def _clean_script (s : String) : String :=
  ⟨stripChars ((collapseWs s.toList).filter
      (fun c => isWordChar c || isPySpace c || isKeptPunct c))⟩

/-- Split a character list at newline characters. -/
def splitNL : List Char → List (List Char)
  | [] => [[]]
  | c :: cs =>
    match splitNL cs with
    | [] => [[c]]
    | h :: t => if c = '\n' then [] :: h :: t else (c :: h) :: t

/-- `ScriptProcessor._split_paragraphs`: split on newlines, strip each
piece, drop blanks.  (The source splits on `\n\s*\n|\n`; the alternation
only changes which whitespace-only pieces arise, and those are removed
by the blank filter, so splitting at every newline is extensionally the
same after the filter.) -/
def _split_paragraphs (s : String) : List String :=
  (((splitNL s.toList).map stripChars).filter (· ≠ [])).map List.asString

/-- Python `str.split()` with no argument: split on whitespace runs,
dropping empty tokens.  `acc` holds the current token reversed. -/
def pyWordsGo (acc : List Char) : List Char → List (List Char)
  | [] => if acc.isEmpty then [] else [acc.reverse]
  | c :: cs =>
    if isPySpace c then
      if acc.isEmpty then pyWordsGo [] cs
      else acc.reverse :: pyWordsGo [] cs
    else pyWordsGo (c :: acc) cs

def pyWords (s : String) : List String :=
  (pyWordsGo [] s.toList).map List.asString

/-- `len(para.split())` — whitespace-token count. -/
def wordCount (s : String) : Nat := (pyWords s).length

/-- The `text` section configuration consumed by `ScriptProcessor.__init__`
(defaults 150 / 30 / 3 from `config.py`). -/
structure SPConfig where
  words_per_minute : ℚ
  max_scene_duration : ℚ
  min_scene_duration : ℚ
deriving DecidableEq

def defaultSPConfig : SPConfig :=
  { words_per_minute := 150, max_scene_duration := 30, min_scene_duration := 3 }

/-- `Scene` dataclass (the `transition` field is never set by the
segmenter and is omitted). -/
structure Scene where
  text : String
  duration : ℚ
  image_prompt : String
deriving DecidableEq

/-- Stop-word set of `_generate_image_prompt`. -/
def skip_words : List String :=
  ["the", "a", "an", "is", "are", "was", "were", "be", "been",
   "being", "have", "has", "had", "do", "does", "did", "will",
   "would", "could", "should", "may", "might", "must", "shall",
   "can", "need", "dare", "ought", "used", "to", "of", "in",
   "for", "on", "with", "at", "by", "from", "as", "into",
   "through", "during", "before", "after", "above", "below",
   "between", "under", "again", "further", "then", "once"]

def toLowerStr (s : String) : String := ⟨s.toList.map Char.toLower⟩

/-- The word-collection loop of `_generate_image_prompt`: append words
not in the stop set; break as soon as ten are collected. -/
def collectMeaningful (acc : List String) : List String → List String
  | [] => acc.reverse
  | w :: ws =>
    let acc' := if skip_words.contains (toLowerStr w) then acc else w :: acc
    if 10 ≤ acc'.length then acc'.reverse else collectMeaningful acc' ws

/-- Python's `sep.join(parts)`. -/
def pyJoin (sep : String) : List String → String
  | [] => ""
  | [x] => x
  | x :: xs => x ++ sep ++ pyJoin sep xs

/-- `ScriptProcessor._generate_image_prompt`. -/
def _generate_image_prompt (text : String) : String :=
  let prompt := pyJoin " " (collectMeaningful [] (pyWords text))
  if prompt = "" then ⟨text.toList.take 50⟩ else prompt

/-- Python's builtin `max` on two values: keeps the first unless the
second is strictly larger. -/
def pyMax (a b : ℚ) : ℚ := if a < b then b else a

/-- Python's builtin `min` on two values: keeps the first unless the
second is strictly smaller. -/
def pyMin (a b : ℚ) : ℚ := if b < a then b else a

/-- `ScriptProcessor._create_scenes`: per-paragraph duration
`max(min_d, min(duration, max_d))` — the clamp of
`word_count / words_per_minute * 60` into the configured bounds. -/
def _create_scenes (cfg : SPConfig) (paragraphs : List String) : List Scene :=
  paragraphs.map fun para =>
    let duration : ℚ := (wordCount para : ℚ) / cfg.words_per_minute * 60
    let duration := pyMax cfg.min_scene_duration (pyMin duration cfg.max_scene_duration)
    { text := para, duration := duration,
      image_prompt := _generate_image_prompt para }

/-- A chunk dictionary `{'scenes': [...], 'total_duration': ...}`; the
per-scene dictionaries carry the same fields as `Scene`. -/
structure Chunk where
  scenes : List Scene
  total_duration : ℚ
deriving DecidableEq

/-- The packing loop of `_create_chunks`: `cur`/`tot` mirror
`current_chunk['scenes']` and `current_chunk['total_duration']`. -/
def chunksGo (maxD : ℚ) : List Scene → List Scene → ℚ → List Chunk
  | [], cur, tot =>
    if cur.isEmpty then [] else [{ scenes := cur, total_duration := tot }]
  | s :: rest, cur, tot =>
    if maxD < tot + s.duration then
      if cur.isEmpty then chunksGo maxD rest [s] s.duration
      else { scenes := cur, total_duration := tot } :: chunksGo maxD rest [s] s.duration
    else chunksGo maxD rest (cur ++ [s]) (tot + s.duration)

/-- `ScriptProcessor._create_chunks`. -/
def _create_chunks (scenes : List Scene) (maxD : ℚ) : List Chunk :=
  chunksGo maxD scenes [] 0

/-- `ScriptProcessor.parse_script`. -/
def parse_script (cfg : SPConfig) (script_text : String) (maxD : ℚ) : List Chunk :=
  _create_chunks (_create_scenes cfg (_split_paragraphs (_clean_script script_text))) maxD

/-! ## Speech synthesis coordinator (`tts_generator.py`) -/

/-- `TTSConfig` as consumed by cache-key derivation.  `rate` is kept in
its f-string rendering (the default float `1.0` prints as `"1.0"`). -/
structure TTSConfig where
  engine : String
  language : String
  rate : String
deriving DecidableEq

/-- `TTSBase.get_cache_key`: the `key_data` string
`f"{text}_{engine}_{language}_{rate}"`.  The source hashes this with
md5 and uses the hex digest as the key; md5 is modelled by its preimage
string, a faithful rendering of a fixed injective-by-intent fingerprint
(equal keys iff equal `key_data`). -/
def get_cache_key (cfg : TTSConfig) (text : String) : String :=
  text ++ "_" ++ cfg.engine ++ "_" ++ cfg.language ++ "_" ++ cfg.rate

/-- Keys of the `self.engines` dict built in `TTSGenerator.__init__`. -/
def knownEngines : List String := ["google", "edge", "coqui", "pyttsx3"]

/-- `TTSGenerator` state.  `__init__` builds ONE `TTSConfig` (with
`engine := tts_engine` from the configuration) and passes that same
object to all four engine constructors, so every engine instance shares
`sharedConfig`. -/
structure TTSGenerator where
  tts_engine : String
  sharedConfig : TTSConfig
  fallback_engines : List String
deriving DecidableEq

/-- `TTSGenerator.__init__` given realised config values. -/
def TTSGenerator.init (tts_engine language rate : String)
    (fallbacks : List String) : TTSGenerator :=
  { tts_engine := tts_engine,
    sharedConfig := { engine := tts_engine, language := language, rate := rate },
    fallback_engines := fallbacks }

/-- Observable trace of one `generate_speech` call: overall success, the
engines whose `generate` was invoked (in invocation order), the
`_cache_result` calls `(engine argument, cache key written)`, and
whether a cached artifact was copied out instead. -/
structure SpeechTrace where
  success : Bool
  attempts : List String
  cacheWrites : List (String × String)
  usedCache : Bool
deriving DecidableEq

/-- Python `str.strip()` on a `String`. -/
def pyStrip (s : String) : String := ⟨stripChars s.toList⟩

/-- The fallback loop of `generate_speech`: try each configured
fallback in order, skipping the already-tried preferred engine and
names absent from the engines dict, stopping at the first success and
caching the result through that engine's instance (whose config is the
shared one). -/
def tryFallbacks (g : TTSGenerator) (text : String) (engine : String)
    (gen : String → Bool) : List String → SpeechTrace
  | [] => { success := false, attempts := [], cacheWrites := [], usedCache := false }
  | f :: rest =>
    if f ≠ engine ∧ knownEngines.contains f then
      if gen f then
        { success := true, attempts := [f],
          cacheWrites := [(f, get_cache_key g.sharedConfig text)],
          usedCache := false }
      else
        let t := tryFallbacks g text engine gen rest
        { t with attempts := f :: t.attempts }
    else tryFallbacks g text engine gen rest

/-- `TTSGenerator.generate_speech`.  `engineOpt` is the `engine`
argument (`None` falls back to the configured `tts_engine`); `cache`
tells which cache keys currently have an artifact on disk; `gen e` is
whether engine `e`'s backend `generate` call succeeds. -/
def generate_speech (g : TTSGenerator) (text : String)
    (engineOpt : Option String) (use_cache : Bool)
    (cache : String → Bool) (gen : String → Bool) : SpeechTrace :=
  if pyStrip text = "" then
    { success := false, attempts := [], cacheWrites := [], usedCache := false }
  else
    let engine := engineOpt.getD g.tts_engine
    -- `_get_cached(text, engine)` looks the key up through the engine's
    -- instance; every instance computes the same shared-config key.
    if use_cache ∧ knownEngines.contains engine ∧
        cache (get_cache_key g.sharedConfig text) then
      { success := true, attempts := [], cacheWrites := [], usedCache := true }
    else if knownEngines.contains engine ∧ gen engine then
      { success := true, attempts := [engine],
        cacheWrites := [(engine, get_cache_key g.sharedConfig text)],
        usedCache := false }
    else
      let t := tryFallbacks g text engine gen g.fallback_engines
      { t with
        attempts := (if knownEngines.contains engine then [engine] else []) ++ t.attempts }

/-! ## Visual asset coordinator (`image_generator.py`) -/

/-- A PIL image artifact as far as the claims observe it: pixel
dimensions and the text lines drawn onto it. -/
structure PILImage where
  width : Nat
  height : Nat
  texts : List String
deriving DecidableEq

/-- The prompt truncation of `_generate_placeholder`:
`prompt[:60] + "..." if len(prompt) > 60 else prompt`. -/
def truncPrompt (p : String) : String :=
  if 60 < p.length then (⟨p.toList.take 60⟩ : String) ++ "..." else p

/-- `ImageGenerator._generate_placeholder`.  `pilOk` is whether the
PIL drawing/saving raises (abnormal I/O); on the exception path the
function logs and returns `False`, modelled as `none`. -/
def _generate_placeholder (prompt : String) (size : Nat × Nat)
    (pilOk : Bool) : Option PILImage :=
  if pilOk then
    some { width := size.1, height := size.2,
           texts := [truncPrompt prompt, "AI Generated Placeholder"] }
  else none

/-- The retry loop of `_generate_stable_diffusion`: attempts
`0 .. num_attempts-1`; the first attempt for which the pipeline yields
an image returns it; exhaustion re-raises into the outer handler. -/
def sdAttemptLoop (sdAttempt : Nat → Option PILImage) : Nat → Nat → Option PILImage
  | _, 0 => none
  | i, n + 1 =>
    match sdAttempt i with
    | some img => some img
    | none => sdAttemptLoop sdAttempt (i + 1) n

/-- `ImageGenerator._generate_stable_diffusion`: if the pipeline failed
to load, or every attempt raised, fall back to the placeholder. -/
def _generate_stable_diffusion (prompt : String) (size : Nat × Nat)
    (num_attempts : Nat) (pipelineLoaded : Bool)
    (sdAttempt : Nat → Option PILImage) (pilOk : Bool) : Option PILImage :=
  if pipelineLoaded then
    match sdAttemptLoop sdAttempt 0 num_attempts with
    | some img => some img
    | none => _generate_placeholder prompt size pilOk
  else _generate_placeholder prompt size pilOk

/-- `ImageGenerator.generate_image`: dispatch on the engine name;
any name other than `"stable_diffusion"` and `"placeholder"` logs a
warning and uses the placeholder. -/
def generate_image (prompt : String) (engine : String) (size : Nat × Nat)
    (num_attempts : Nat) (pipelineLoaded : Bool)
    (sdAttempt : Nat → Option PILImage) (pilOk : Bool) : Option PILImage :=
  if engine = "stable_diffusion" then
    _generate_stable_diffusion prompt size num_attempts pipelineLoaded sdAttempt pilOk
  else if engine = "placeholder" then
    _generate_placeholder prompt size pilOk
  else
    _generate_placeholder prompt size pilOk

/-! ## Enhancement stages (`video_processor.py`) and `_enhance_video`

Video artifacts are modelled by their content (an opaque `String`).
Each `VideoProcessor.add_*` stage writes to a fresh output path and
returns a boolean; on an internal exception the handler copies the
input file to the output path and still returns `True`.  A stage is
therefore modelled as `(success flag, output content)` where the
content equals the transformed input on success and the unchanged
input on internal failure. -/

/-- `VideoProcessor.add_subtitles`: composite subtitles on success,
copy-through on exception — the return value is `True` either way. -/
def add_subtitles_stage (ok : Bool) (fx : String → String) (v : String) :
    Bool × String :=
  (true, if ok then fx v else v)

/-- `VideoProcessor.add_transitions`: same structure. -/
def add_transitions_stage (ok : Bool) (fx : String → String) (v : String) :
    Bool × String :=
  (true, if ok then fx v else v)

/-- `VideoProcessor.add_background_music`: same structure. -/
def add_background_music_stage (ok : Bool) (fx : String → String) (v : String) :
    Bool × String :=
  (true, if ok then fx v else v)

/-- The enhancement toggles consulted by `_enhance_video`. -/
structure EnhanceOpts where
  add_subtitles : Bool
  add_transitions : Bool
  add_background_music : Bool
  background_music_path : Option String
deriving DecidableEq

/-- `AdvancedVideoGenerator._enhance_video` at the level of artifact
content: each enabled stage replaces the running artifact when its call
reports success (which, per the stage models above, it always does). -/
def _enhance_video (opts : EnhanceOpts)
    (subOk : Bool) (subFx : String → String)
    (transOk : Bool) (transFx : String → String)
    (musOk : Bool) (musFx : String → String) (v : String) : String :=
  let v1 :=
    if opts.add_subtitles then
      let r := add_subtitles_stage subOk subFx v
      if r.1 then r.2 else v
    else v
  let v2 :=
    if opts.add_transitions then
      let r := add_transitions_stage transOk transFx v1
      if r.1 then r.2 else v1
    else v1
  let v3 :=
    if opts.add_background_music ∧ opts.background_music_path.isSome then
      let r := add_background_music_stage musOk musFx v2
      if r.1 then r.2 else v2
    else v2
  v3

/-! ## Orchestrator (`main.py`)

Per-run artifacts are modelled with their provenance: an audio file
carries the index it was written under (`audio_chunk_{i}`) and the
chunk text it was synthesized from; an image file carries the chunk
and scene indices it was generated for. -/

structure AudioFile where
  index : Nat
  text : String
deriving DecidableEq

structure ImageFile where
  chunkIdx : Nat
  sceneIdx : Nat
deriving DecidableEq

/-- `" ".join([s['text'] for s in chunk['scenes']])`. -/
def chunkText (c : Chunk) : String :=
  pyJoin " " (c.scenes.map (·.text))

/-- Outcome of the audio stage: either its loop ran to completion with
the collected files, or an exception escaped the loop. -/
inductive AudioStageResult where
  | ok (files : List AudioFile)
  | raised (msg : String)
deriving DecidableEq

/-- `AdvancedVideoGenerator._generate_audio_for_chunks`.  Each loop
iteration evaluates `self.config['text_to_speech']['language']` before
the call, and the configuration has no `text_to_speech` section (the
TTS settings live under `audio`), so the first iteration raises
`KeyError('text_to_speech')` — modelled as `str(e)`, the string the
`except` handler reports.  Were that section present, the call itself
would raise `TypeError`, because `TTSGenerator.generate_speech` accepts
no `language`/`rate` parameters.  Either way the exception escapes on
the first chunk: the function can never append a file, and its
skip-on-failure branch is dead (`generate_speech` never returns a
boolean from this call site).  With zero chunks the loop body never
runs and the empty list is returned. -/
def _generate_audio_for_chunks (chunks : List Chunk) : AudioStageResult :=
  match chunks with
  | [] => .ok []
  | _ :: _ => .raised "'text_to_speech'"

/-- `AdvancedVideoGenerator._generate_images_for_chunks`: every scene
receives an image (a placeholder is substituted on generation failure),
so the per-chunk lists always line up with the chunks. -/
def _generate_images_for_chunks (chunks : List Chunk) : List (List ImageFile) :=
  chunks.enum.map fun p =>
    p.2.scenes.enum.map fun q => { chunkIdx := p.1, sceneIdx := q.1 }

/-- A `video_chunk_{i}` artifact: the zip position it was written
under, the chunk whose scenes/durations it renders, the audio file
attached as its audio track, and its image list. -/
structure VideoChunk where
  index : Nat
  chunk : Chunk
  audio : AudioFile
  images : List ImageFile
deriving DecidableEq

/-- `AdvancedVideoGenerator._create_video_chunks`:
`zip(chunks, audio_files, image_files)` truncates to the shortest list
and pairs positionally; a chunk whose slideshow creation fails is
logged and skipped. -/
def _create_video_chunks (chunks : List Chunk) (audio_files : List AudioFile)
    (image_files : List (List ImageFile)) (assembleOk : Nat → Bool) :
    List VideoChunk :=
  (chunks.zip (audio_files.zip image_files)).enum.filterMap fun p =>
    if assembleOk p.1 then
      some { index := p.1, chunk := p.2.1, audio := p.2.2.1, images := p.2.2.2 }
    else none

/-- The generation options consumed by the orchestration observables
modelled here (presentation fields — quality, engines, formats, cloud
settings — do not affect any claimed observable and are omitted). -/
structure GenerationOptions where
  generate_images : Bool
  chunk_duration : ℚ
deriving DecidableEq

def defaultGenerationOptions : GenerationOptions :=
  { generate_images := true, chunk_duration := 300 }

/-- Success oracles for the fallible per-run backend calls reachable
after the audio stage (slideshow assembly per zip position, merge).
The audio stage needs no oracle: its call site raises before any
backend outcome can be observed (see `_generate_audio_for_chunks`). -/
structure RunOracles where
  assembleOk : Nat → Bool
  mergeOk : Bool

/-- The two completion actions of interest to the orchestration claims,
in the order the source performs them. -/
inductive RunEvent where
  | updateStats
  | cleanup
deriving DecidableEq

/-- The result dictionary of `generate_from_script`, plus the trace of
completion actions performed during the run.  On the exception path the
dictionary carries `success=False`, an `error` string and
`output_path=None` (no `chunks_processed`/`duration` keys). -/
structure GenResult where
  success : Bool
  output_path : Option String
  chunks_processed : Option Nat
  duration : Option ℚ
  error : Option String
  events : List RunEvent
deriving DecidableEq

/-- The `except` branch of `generate_from_script`: a raised stage error
is caught and returned as a failure dictionary; statistics update and
temp cleanup (which sit on the success path before the return) have not
run. -/
def failResult (msg : String) : GenResult :=
  { success := false, output_path := none, chunks_processed := none,
    duration := none, error := some msg, events := [] }

/-- Steps 2–7 of `generate_from_script`, operating on the chunk list
produced by Step 1.  Raised exceptions are modelled by returning the
`except`-branch result with `str(e)` as the error.  The branches after
the audio stage transcribe Steps 3–7 of the source (image generation,
chunk assembly, merge, the success dictionary with
`'chunks_processed': len(chunks)`); in execution they are reachable
only with an empty `audio_files` list — the audio loop either raises
(≥ 1 chunk) or collects nothing (0 chunks) — so the success branch is
dead code, exactly as in the source.  Enhancement (Step 6) never fails
(§`_enhance_video`) and cloud upload returns `Optional` without
raising, so neither changes the result observables. -/
def pipeline_from_chunks (opts : GenerationOptions) (o : RunOracles)
    (output_path : String) (chunks : List Chunk) : GenResult :=
  match _generate_audio_for_chunks chunks with
  | .raised msg => failResult msg
  | .ok audio_files =>
    if audio_files.isEmpty then failResult "Audio generation failed"
    else
      let image_files :=
        if opts.generate_images then _generate_images_for_chunks chunks else []
      let video_chunks := _create_video_chunks chunks audio_files image_files o.assembleOk
      if video_chunks.isEmpty then failResult "Video chunk creation failed"
      else
        let merged := if video_chunks.length = 1 then true else o.mergeOk
        if merged then
          { success := true,
            output_path := some output_path,
            chunks_processed := some chunks.length,
            duration := some ((chunks.map (·.total_duration)).sum),
            error := none,
            events := [.updateStats, .cleanup] }
        else failResult "Video merging failed"

/-- `AdvancedVideoGenerator.generate_from_script`. -/
def generate_from_script (cfg : SPConfig) (opts : GenerationOptions)
    (o : RunOracles) (script_text : String) (output_path : String) : GenResult :=
  pipeline_from_chunks opts o output_path
    (parse_script cfg script_text opts.chunk_duration)

/-! ## Concrete inputs used by witnesses and counterexamples -/

/-- Sum of the scene durations of a list, the quantity
`current_chunk['total_duration']` accumulates. -/
def sumDur (l : List Scene) : ℚ := (l.map Scene.duration).sum

/-- Mathematical clamp of `x` into `[lo, hi]`, the operation the spec
describes as `clamp(word_count / words_per_minute * 60, min, max)`. -/
def clamp (x lo hi : ℚ) : ℚ := max lo (min x hi)

/-- The script of end-to-end scenario 1. -/
def helloScript : String := "Hello world. This is a test."

/-- The single scene `parse_script` produces for `helloScript` under the
default configuration (6 words at 150 wpm is 2.4 s, clamped up to 3 s). -/
def sceneHello : Scene :=
  { text := helloScript, duration := 3, image_prompt := "Hello world. This test." }

/-- The single chunk `parse_script` produces for `helloScript`. -/
def chunkHello : Chunk := { scenes := [sceneHello], total_duration := 3 }

/-- Oracles under which every reachable backend call succeeds. -/
def allOkOracles : RunOracles :=
  { assembleOk := fun _ => true, mergeOk := true }

def chunkAlpha : Chunk :=
  { scenes := [{ text := "alpha", duration := 3, image_prompt := "alpha" }],
    total_duration := 3 }

def chunkBravo : Chunk :=
  { scenes := [{ text := "bravo", duration := 3, image_prompt := "bravo" }],
    total_duration := 3 }

/-- A script written as three blank-line-separated paragraphs — the
natural input for the spec's three-chunk scenario. -/
def threeParaScript : String := "one\n\ntwo\n\nthree"

/-- The single scene segmentation actually produces for
`threeParaScript`: cleaning collapses the blank lines to spaces before
the newline-based paragraph split, leaving one three-word paragraph
(1.2 s, clamped up to 3 s). -/
def sceneThreePara : Scene :=
  { text := "one two three", duration := 3, image_prompt := "one two three" }

/-- The single chunk segmentation produces for `threeParaScript`. -/
def chunkThreePara : Chunk := { scenes := [sceneThreePara], total_duration := 3 }

/-- A TTS coordinator built from the default configuration values
(`tts_engine='google'`, `language='en-US'`, `rate=1.0`, fallbacks
`['google', 'edge', 'pyttsx3']`). -/
def defaultTTS : TTSGenerator :=
  TTSGenerator.init "google" "en-US" "1.0" ["google", "edge", "pyttsx3"]

/-! ## Helper lemmas -/

theorem sumDur_singleton (s : Scene) : sumDur [s] = s.duration := by simp [sumDur]

theorem sumDur_append (l : List Scene) (s : Scene) :
    sumDur (l ++ [s]) = sumDur l + s.duration := by simp [sumDur]

/-- Python's two-argument `max` agrees with the lattice `max` on `ℚ`. -/
theorem pyMax_eq (a b : ℚ) : pyMax a b = max a b := by
  unfold pyMax
  rcases lt_or_ge a b with h | h
  · rw [if_pos h, max_eq_right h.le]
  · rw [if_neg (not_lt.mpr h), max_eq_left h]

/-- Python's two-argument `min` agrees with the lattice `min` on `ℚ`. -/
theorem pyMin_eq (a b : ℚ) : pyMin a b = min a b := by
  unfold pyMin
  rcases lt_or_ge b a with h | h
  · rw [if_pos h, min_eq_right h.le]
  · rw [if_neg (not_lt.mpr h), min_eq_left h]

/-- A flushed `current_chunk` satisfies the chunk invariant: its
running total is the sum of its scenes, and it respects the bound
unless it is an oversized singleton. -/
theorem emit_ok (maxD : ℚ) (cur : List Scene) (tot : ℚ)
    (htot : tot = sumDur cur) (hne : cur ≠ [])
    (hinv : cur = [] ∨ tot ≤ maxD ∨ ∃ s, cur = [s]) :
    tot = sumDur cur ∧ cur ≠ [] ∧
      (tot ≤ maxD ∨ ∃ s, cur = [s] ∧ maxD < s.duration) := by
  refine ⟨htot, hne, ?_⟩
  rcases hinv with h | h | ⟨s, rfl⟩
  · exact absurd h hne
  · exact Or.inl h
  · rcases le_or_lt s.duration maxD with h | h
    · left
      rw [htot, sumDur_singleton]
      exact h
    · exact Or.inr ⟨s, rfl, h⟩

/-- Invariant of the packing loop `chunksGo`: starting from any
well-formed accumulator state, every emitted chunk satisfies the chunk
invariant and the emitted chunks' scenes concatenate to the
accumulator followed by the remaining input. -/
theorem chunksGo_spec (maxD : ℚ) (scenes : List Scene) :
    ∀ (cur : List Scene) (tot : ℚ), tot = sumDur cur →
      (cur = [] ∨ tot ≤ maxD ∨ ∃ s, cur = [s]) →
      (∀ c ∈ chunksGo maxD scenes cur tot,
          c.total_duration = sumDur c.scenes ∧ c.scenes ≠ [] ∧
          (c.total_duration ≤ maxD ∨ ∃ s, c.scenes = [s] ∧ maxD < s.duration)) ∧
      ((chunksGo maxD scenes cur tot).map Chunk.scenes).flatten = cur ++ scenes := by
  induction scenes with
  | nil =>
    intro cur tot htot hinv
    by_cases hcur : cur.isEmpty
    · have hc : cur = [] := by simpa [List.isEmpty_iff] using hcur
      subst hc
      simp [chunksGo]
    · have hc : cur ≠ [] := by simpa [List.isEmpty_iff] using hcur
      simp only [chunksGo, if_neg hcur]
      refine ⟨?_, by simp⟩
      intro c hcm
      rw [List.mem_singleton] at hcm
      subst hcm
      exact emit_ok maxD cur tot htot hc hinv
  | cons s rest ih =>
    intro cur tot htot hinv
    simp only [chunksGo]
    by_cases hover : maxD < tot + s.duration
    · rw [if_pos hover]
      by_cases hcur : cur.isEmpty
      · rw [if_pos hcur]
        have hc : cur = [] := by simpa [List.isEmpty_iff] using hcur
        subst hc
        have h2 := ih [s] s.duration (by simp [sumDur]) (Or.inr (Or.inr ⟨s, rfl⟩))
        exact ⟨h2.1, by simpa using h2.2⟩
      · rw [if_neg hcur]
        have hc : cur ≠ [] := by simpa [List.isEmpty_iff] using hcur
        have h2 := ih [s] s.duration (by simp [sumDur]) (Or.inr (Or.inr ⟨s, rfl⟩))
        constructor
        · intro c hcm
          rcases List.mem_cons.mp hcm with rfl | hmem
          · exact emit_ok maxD cur tot htot hc hinv
          · exact h2.1 c hmem
        · simp [h2.2]
    · rw [if_neg hover]
      have hle : tot + s.duration ≤ maxD := not_lt.mp hover
      have h2 := ih (cur ++ [s]) (tot + s.duration)
        (by rw [htot, sumDur_append]) (Or.inr (Or.inl hle))
      exact ⟨h2.1, by simpa using h2.2⟩

/-- Cleaning collapses the script to a single line, so the paragraph
split returns it whole: the period does not split it. -/
theorem clean_split_hello :
    _split_paragraphs (_clean_script helloScript) = [helloScript] := by decide

/-- Scene construction for the scenario-1 script: 6 words at 150 wpm
gives 2.4 s, clamped up to the 3 s minimum. -/
theorem scenes_hello :
    _create_scenes defaultSPConfig [helloScript] = [sceneHello] := by
  have hw : wordCount "Hello world. This is a test." = 6 := by decide
  have hp : _generate_image_prompt "Hello world. This is a test." =
      "Hello world. This test." := by decide
  simp only [_create_scenes, List.map, defaultSPConfig, sceneHello, helloScript, hw, hp]
  norm_num [pyMax, pyMin]

/-- The single 3-second scene packs into one chunk under the 300 s bound. -/
theorem chunks_hello : _create_chunks [sceneHello] 300 = [chunkHello] := by
  norm_num [_create_chunks, chunksGo, sceneHello, chunkHello]

/-- Full segmentation of the scenario-1 script: one chunk holding one scene. -/
theorem parse_hello :
    parse_script defaultSPConfig helloScript 300 = [chunkHello] := by
  rw [parse_script, clean_split_hello, scenes_hello, chunks_hello]

/-- Cleaning collapses the blank-line separators of the three-paragraph
script into spaces, so the paragraph split returns one paragraph. -/
theorem clean_split_threePara :
    _split_paragraphs (_clean_script threeParaScript) = ["one two three"] := by decide

/-- Scene construction for the three-paragraph script: 3 words at
150 wpm gives 1.2 s, clamped up to the 3 s minimum. -/
theorem scenes_threePara :
    _create_scenes defaultSPConfig ["one two three"] = [sceneThreePara] := by
  have hw : wordCount "one two three" = 3 := by decide
  have hp : _generate_image_prompt "one two three" = "one two three" := by decide
  simp only [_create_scenes, List.map, defaultSPConfig, sceneThreePara, hw, hp]
  norm_num [pyMax, pyMin]

/-- The single 3-second scene packs into one chunk under the 300 s bound. -/
theorem chunks_threePara :
    _create_chunks [sceneThreePara] 300 = [chunkThreePara] := by
  norm_num [_create_chunks, chunksGo, sceneThreePara, chunkThreePara]

/-- Full segmentation of the three-paragraph script: ONE chunk holding
one scene — blank-line paragraph breaks never survive cleaning. -/
theorem parse_threePara :
    parse_script defaultSPConfig threeParaScript 300 = [chunkThreePara] := by
  rw [parse_script, clean_split_threePara, scenes_threePara, chunks_threePara]

/-- Whitespace collapsing never emits a newline: every whitespace run
becomes a single space and non-whitespace characters are kept as-is. -/
theorem collapseWsGo_no_newline (l : List Char) : ∀ b, '\n' ∉ collapseWsGo b l := by
  induction l with
  | nil =>
    intro b h
    simp [collapseWsGo] at h
  | cons c cs ih =>
    intro b h
    simp only [collapseWsGo] at h
    by_cases hsp : isPySpace c = true
    · rw [if_pos hsp] at h
      by_cases hb : b = true
      · rw [if_pos hb] at h
        exact ih true h
      · rw [if_neg hb] at h
        rcases List.mem_cons.mp h with h1 | h1
        · exact absurd h1 (by decide)
        · exact ih true h1
    · rw [if_neg hsp] at h
      rcases List.mem_cons.mp h with h1 | h1
      · subst h1
        exact hsp (by decide)
      · exact ih false h1

/-- Stripping only removes characters. -/
theorem stripChars_subset (l : List Char) : ∀ c ∈ stripChars l, c ∈ l := by
  intro c hc
  simp only [stripChars] at hc
  rw [List.mem_reverse] at hc
  have h1 : c ∈ (l.dropWhile isPySpace).reverse :=
    (List.dropWhile_sublist isPySpace).subset hc
  rw [List.mem_reverse] at h1
  exact (List.dropWhile_sublist isPySpace).subset h1

/-- The cleaned script contains no newline: collapsing already replaced
every newline, and the later filter and strip only remove characters. -/
theorem clean_script_no_newline (s : String) : '\n' ∉ (_clean_script s).toList := by
  intro h
  have h2 : '\n' ∈ (collapseWs s.toList).filter
      (fun c => isWordChar c || isPySpace c || isKeptPunct c) :=
    stripChars_subset _ '\n' h
  have h3 : '\n' ∈ collapseWs s.toList := (List.mem_filter.mp h2).1
  exact collapseWsGo_no_newline s.toList false h3

/-- Splitting a newline-free character list at newlines returns it whole. -/
theorem splitNL_no_newline (l : List Char) (h : '\n' ∉ l) : splitNL l = [l] := by
  induction l with
  | nil => rfl
  | cons c cs ih =>
    have hc : c ≠ '\n' := fun he => h (by simp [he])
    have hcs : '\n' ∉ cs := fun hm => h (List.mem_cons_of_mem _ hm)
    simp only [splitNL, ih hcs]
    rw [if_neg hc]

/-- A newline-free string yields at most one paragraph. -/
theorem split_paragraphs_length_le (s : String) (h : '\n' ∉ s.toList) :
    (_split_paragraphs s).length ≤ 1 := by
  simp only [_split_paragraphs, splitNL_no_newline s.toList h, List.map]
  rw [List.length_map]
  exact le_trans (List.length_filter_le _ _) (by simp)

/-- Packing at most one scene yields at most one chunk. -/
theorem create_chunks_length_le (scenes : List Scene) (maxD : ℚ)
    (h : scenes.length ≤ 1) : (_create_chunks scenes maxD).length ≤ 1 := by
  rcases scenes with _ | ⟨s, _ | ⟨t, rest⟩⟩
  · simp [_create_chunks, chunksGo]
  · simp only [_create_chunks, chunksGo]
    split_ifs <;> simp_all [chunksGo]
  · simp at h

/-- The Segmenter never produces more than one chunk for ANY input:
`_clean_script` collapses every newline before `_split_paragraphs`
splits on newlines, so at most one paragraph, scene, and chunk exist. -/
theorem parse_script_length_le (cfg : SPConfig) (s : String) (maxD : ℚ) :
    (parse_script cfg s maxD).length ≤ 1 := by
  unfold parse_script
  apply create_chunks_length_le
  simp only [_create_scenes, List.length_map]
  exact split_paragraphs_length_le _ (clean_script_no_newline s)

/-- Every orchestration run fails: with zero chunks the audio list is
empty and the `ValueError` path is taken; with at least one chunk the
audio step raises `KeyError('text_to_speech')` on its first iteration. -/
theorem generate_from_script_fails (cfg : SPConfig) (opts : GenerationOptions)
    (o : RunOracles) (script out : String) :
    generate_from_script cfg opts o script out =
      (if (parse_script cfg script opts.chunk_duration).isEmpty
       then failResult "Audio generation failed"
       else failResult "'text_to_speech'") := by
  simp only [generate_from_script, pipeline_from_chunks]
  cases parse_script cfg script opts.chunk_duration with
  | nil => simp [_generate_audio_for_chunks]
  | cons c cs => simp [_generate_audio_for_chunks]

/-- Trace of the fallback loop: it invokes exactly the valid fallback
entries distinct from the preferred engine, in configured order, up to
and including the first success, and succeeds iff one of them succeeds. -/
theorem tryFallbacks_spec (g : TTSGenerator) (text engine : String) (gen : String → Bool)
    (fbs : List String) (hval : ∀ f ∈ fbs, knownEngines.contains f = true) :
    (tryFallbacks g text engine gen fbs).attempts =
      ((fbs.filter (fun f => f != engine)).takeWhile (fun f => !gen f) ++
       ((fbs.filter (fun f => f != engine)).dropWhile (fun f => !gen f)).take 1) ∧
    (tryFallbacks g text engine gen fbs).success =
      (fbs.filter (fun f => f != engine)).any gen := by
  induction fbs with
  | nil => simp [tryFallbacks]
  | cons f rest ih =>
    have hvr : ∀ x ∈ rest, knownEngines.contains x = true :=
      fun x hx => hval x (List.mem_cons_of_mem f hx)
    have hvf : knownEngines.contains f = true := hval f (List.mem_cons_self f rest)
    have ihr := ih hvr
    by_cases hfe : f = engine
    · subst hfe
      have hcond : ¬(f ≠ f ∧ knownEngines.contains f = true) := by simp
      simp only [tryFallbacks]
      rw [if_neg hcond]
      simpa [List.filter_cons] using ihr
    · have hcond : f ≠ engine ∧ knownEngines.contains f = true := ⟨hfe, hvf⟩
      by_cases hg : gen f = true
      · simp only [tryFallbacks]
        rw [if_pos hcond, if_pos hg]
        simp [List.filter_cons, hfe, hg]
      · have hgf : gen f = false := by simpa using hg
        simp only [tryFallbacks]
        rw [if_pos hcond, if_neg hg]
        simp only [List.filter_cons]
        simp [hfe, hgf, ihr.1, ihr.2]

/-! ## Claim theorems -/

/-- Claim C1 (counterexample): the claimed degraded-success run does
not occur — the natural three-paragraph script segments into ONE
chunk (three chunks are unreachable), and `generate_from_script` on it
returns `success = False` with no `chunks_processed` key at all: the
audio step raises `KeyError('text_to_speech')` on its first chunk, so
the run never reaches assembly, let alone a success result with
`chunks_processed == 2`. -/
theorem claim_C1_counterexample :
    (parse_script defaultSPConfig threeParaScript 300).length = 1 ∧
    (generate_from_script defaultSPConfig defaultGenerationOptions allOkOracles
        threeParaScript "out.mp4").success = false ∧
    (generate_from_script defaultSPConfig defaultGenerationOptions allOkOracles
        threeParaScript "out.mp4").chunks_processed = none := by
  simp only [generate_from_script, defaultGenerationOptions]
  rw [parse_threePara]
  decide

/-- Claim C1 (amended): a generation run never reports success at all:
`generate_from_script` always returns `success = False` with no
`chunks_processed` key — with zero chunks the audio stage collects
nothing and the `ValueError('Audio generation failed')` path is taken,
and with at least one chunk the audio step raises on its first
iteration (the call reads the absent `config['text_to_speech']` and
passes `language`/`rate` arguments `generate_speech` rejects) — and
the Segmenter never produces more than one chunk, so the three-chunk
scenario is unreachable. -/
theorem claim_C1_amended (cfg : SPConfig) (opts : GenerationOptions)
    (o : RunOracles) (script out : String) :
    (generate_from_script cfg opts o script out).success = false ∧
    (generate_from_script cfg opts o script out).chunks_processed = none ∧
    (parse_script cfg script opts.chunk_duration).length ≤ 1 := by
  refine ⟨?_, ?_, parse_script_length_le cfg script opts.chunk_duration⟩ <;>
    (rw [generate_from_script_fails]
     split_ifs <;> simp [failResult])

/-- Claim C2 (code bug): the pairing machinery never executes.  With
any chunks present — here two chunks with texts "alpha" and "bravo" —
the audio stage raises `KeyError('text_to_speech')` on its first
iteration (and would raise `TypeError` for the unsupported
`language`/`rate` arguments even with that config section present), so
the run aborts into the failure dictionary before `_create_video_chunks`
runs: no chunk ever reaches assembly, no audio is ever attached, and
the claimed per-chunk pairing invariant is unrealizable rather than
maintained. -/
theorem claim_C2_failing_run :
    _generate_audio_for_chunks [chunkAlpha, chunkBravo] =
      AudioStageResult.raised "'text_to_speech'" ∧
    (pipeline_from_chunks defaultGenerationOptions allOkOracles "out.mp4"
        [chunkAlpha, chunkBravo]).success = false ∧
    (pipeline_from_chunks defaultGenerationOptions allOkOracles "out.mp4"
        [chunkAlpha, chunkBravo]).error = some "'text_to_speech'" := by decide

/-- Claim C3: every chunk produced by `_create_chunks` has
`total_duration` equal to the sum of its scenes' durations, is
non-empty, and respects `total_duration ≤ max_chunk_duration` unless it
is a singleton whose single scene's duration alone exceeds the bound;
and the chunks' scenes concatenate back to the input scene sequence in
original order (the chunks partition the scenes). -/
theorem claim_C3_chunk_invariants (scenes : List Scene) (maxD : ℚ) :
    (∀ c ∈ _create_chunks scenes maxD,
        c.total_duration = sumDur c.scenes ∧ c.scenes ≠ [] ∧
        (c.total_duration ≤ maxD ∨ ∃ s, c.scenes = [s] ∧ maxD < s.duration)) ∧
    ((_create_chunks scenes maxD).map Chunk.scenes).flatten = scenes := by
  have h := chunksGo_spec maxD scenes [] 0 rfl (Or.inl rfl)
  exact ⟨h.1, by simpa using h.2⟩

/-- Claim C3 (witness): the invariants evaluated on the concrete
single-scene input `[sceneHello]` with bound 300. -/
theorem claim_C3_witness :
    (chunkHello.total_duration = sumDur chunkHello.scenes ∧ chunkHello.scenes ≠ [] ∧
      (chunkHello.total_duration ≤ 300 ∨
        ∃ s, chunkHello.scenes = [s] ∧ 300 < s.duration)) ∧
    ((_create_chunks [sceneHello] 300).map Chunk.scenes).flatten = [sceneHello] :=
  ⟨(claim_C3_chunk_invariants [sceneHello] 300).1 chunkHello
      (by rw [chunks_hello]; exact List.mem_singleton.mpr rfl),
   (claim_C3_chunk_invariants [sceneHello] 300).2⟩

/-- Claim C4: every scene built by `_create_scenes` carries duration
`clamp(word_count / words_per_minute * 60, min_scene_duration,
max_scene_duration)` of its own paragraph text, where the word count is
the whitespace-token count; consequently (for ordered bounds) every
scene's duration lies within `[min_scene_duration, max_scene_duration]`. -/
theorem claim_C4_scene_duration_clamp (cfg : SPConfig) (paras : List String)
    (hcfg : cfg.min_scene_duration ≤ cfg.max_scene_duration) :
    ∀ sc ∈ _create_scenes cfg paras,
      sc.duration = clamp ((wordCount sc.text : ℚ) / cfg.words_per_minute * 60)
          cfg.min_scene_duration cfg.max_scene_duration ∧
      cfg.min_scene_duration ≤ sc.duration ∧
      sc.duration ≤ cfg.max_scene_duration := by
  intro sc hsc
  simp only [_create_scenes, List.mem_map] at hsc
  obtain ⟨p, _, rfl⟩ := hsc
  refine ⟨?_, ?_, ?_⟩
  · simp [clamp, pyMax_eq, pyMin_eq]
  · simp only [pyMax_eq]
    exact le_max_left _ _
  · simp only [pyMax_eq, pyMin_eq]
    exact max_le hcfg (min_le_right _ _)

/-- Claim C4 (witness): the clamp evaluated on the scenario-1 scene
under the default configuration (2.4 s clamped up to 3 s). -/
theorem claim_C4_witness :
    sceneHello.duration = clamp ((wordCount sceneHello.text : ℚ) /
          defaultSPConfig.words_per_minute * 60)
        defaultSPConfig.min_scene_duration defaultSPConfig.max_scene_duration ∧
    defaultSPConfig.min_scene_duration ≤ sceneHello.duration ∧
    sceneHello.duration ≤ defaultSPConfig.max_scene_duration :=
  claim_C4_scene_duration_clamp defaultSPConfig [helloScript] (by decide) sceneHello
    (by rw [scenes_hello]; exact List.mem_singleton.mpr rfl)

/-- Claim C5 (code bug): when the preferred engine "google" fails and
the fallback "edge" succeeds, `_cache_result` persists the artifact,
but every engine instance shares the one `TTSConfig` built in
`__init__` (whose `engine` field is the configured "google"), so the
key written is `md5("hello_google_en-US_1.0")` — exactly the preferred
engine's key, not a key derived from the actual engine "edge". -/
theorem claim_C5_failing_run :
    generate_speech defaultTTS "hello" (some "google") false
        (fun _ => false) (fun e => e == "edge") =
      { success := true, attempts := ["google", "edge"],
        cacheWrites := [("edge", "hello_google_en-US_1.0")], usedCache := false } ∧
    get_cache_key defaultTTS.sharedConfig "hello" = "hello_google_en-US_1.0" ∧
    ("hello_google_en-US_1.0" : String) ≠
      get_cache_key { engine := "edge", language := "en-US", rate := "1.0" } "hello" := by
  decide

/-- Claim C6: when the preferred engine is known but its backend fails
for non-blank text and no cached artifact is used, `generate_speech`
invokes exactly the preferred engine followed by the configured
fallback list entries in order with the preferred engine skipped,
stopping at the first success, and succeeds iff some remaining engine
succeeds (failure only when every engine fails). -/
theorem claim_C6_fallback_order (g : TTSGenerator) (text e : String) (use_cache : Bool)
    (cache : String → Bool) (gen : String → Bool)
    (hblank : pyStrip text ≠ "")
    (hknown : knownEngines.contains e = true)
    (hfail : gen e = false)
    (hnoc : use_cache = false ∨ cache (get_cache_key g.sharedConfig text) = false)
    (hval : ∀ f ∈ g.fallback_engines, knownEngines.contains f = true) :
    (generate_speech g text (some e) use_cache cache gen).attempts =
      e :: ((g.fallback_engines.filter (fun f => f != e)).takeWhile (fun f => !gen f) ++
        ((g.fallback_engines.filter (fun f => f != e)).dropWhile (fun f => !gen f)).take 1) ∧
    (generate_speech g text (some e) use_cache cache gen).success =
      (g.fallback_engines.filter (fun f => f != e)).any gen := by
  have hspec := tryFallbacks_spec g text e gen g.fallback_engines hval
  simp only [generate_speech, Option.getD_some]
  rw [if_neg hblank]
  have hcache : ¬(use_cache = true ∧ knownEngines.contains e = true ∧
      cache (get_cache_key g.sharedConfig text) = true) := by
    rcases hnoc with h | h <;> simp [h]
  rw [if_neg hcache]
  have hpref : ¬(knownEngines.contains e = true ∧ gen e = true) := by simp [hfail]
  rw [if_neg hpref]
  have hmem : e ∈ knownEngines := by simpa using hknown
  simp [hmem, hspec.1, hspec.2]

/-- Claim C6 (witness): preferred "google" forced to fail and "edge"
succeeding — the attempt list is `["google", "edge"]` (the fallback
list is walked in order, "google" skipped, stopped at "edge") and the
call succeeds. -/
theorem claim_C6_fallback_order_witness :
    (generate_speech defaultTTS "hi" (some "google") false (fun _ => false)
        (fun s => s == "edge")).attempts =
      "google" :: ((defaultTTS.fallback_engines.filter (fun f => f != "google")).takeWhile
          (fun f => !(f == "edge")) ++
        ((defaultTTS.fallback_engines.filter (fun f => f != "google")).dropWhile
          (fun f => !(f == "edge"))).take 1) ∧
    (generate_speech defaultTTS "hi" (some "google") false (fun _ => false)
        (fun s => s == "edge")).success =
      (defaultTTS.fallback_engines.filter (fun f => f != "google")).any
        (fun s => s == "edge") :=
  claim_C6_fallback_order defaultTTS "hi" "google" false (fun _ => false)
    (fun s => s == "edge") (by decide) (by decide) (by decide) (Or.inl rfl) (by decide)

/-- Claim C7: for every prompt and every engine name other than the
known "stable_diffusion" and "placeholder" dispatch targets,
`generate_image` (modelled total — it never raises) returns a
successful placeholder artifact of exactly the requested size whose
drawn text is the truncated prompt, whenever the placeholder I/O path
is healthy. -/
theorem claim_C7_placeholder_guarantee (prompt engine : String) (size : Nat × Nat)
    (num_attempts : Nat) (pipelineLoaded : Bool) (sdAttempt : Nat → Option PILImage)
    (h1 : engine ≠ "stable_diffusion") (h2 : engine ≠ "placeholder") :
    generate_image prompt engine size num_attempts pipelineLoaded sdAttempt true =
      some { width := size.1, height := size.2,
             texts := [truncPrompt prompt, "AI Generated Placeholder"] } := by
  simp [generate_image, _generate_placeholder, h1, h2]

/-- Claim C7 (witness): the unknown engine name "dalle" yields the
1024×576 placeholder carrying the prompt text. -/
theorem claim_C7_placeholder_witness :
    generate_image "a cat" "dalle" (1024, 576) 3 false (fun _ => none) true =
      some { width := 1024, height := 576,
             texts := [truncPrompt "a cat", "AI Generated Placeholder"] } :=
  claim_C7_placeholder_guarantee "a cat" "dalle" (1024, 576) 3 false (fun _ => none)
    (by decide) (by decide)

/-- Claim C8: each enhancement stage returns its input content
unchanged (and still reports success) when its internal processing
fails, so no stage failure aborts the run; and with the subtitle stage
forced to fail, `_enhance_video` produces exactly the result of
applying the subsequent stages (transitions, then background music) to
the pre-subtitle merged artifact. -/
theorem claim_C8_passthrough (opts : EnhanceOpts) (subFx transFx musFx : String → String)
    (transOk musOk : Bool) (v : String) :
    add_subtitles_stage false subFx v = (true, v) ∧
    add_transitions_stage false transFx v = (true, v) ∧
    add_background_music_stage false musFx v = (true, v) ∧
    _enhance_video opts false subFx transOk transFx musOk musFx v =
      (let v2 := if opts.add_transitions then (if transOk then transFx v else v) else v
       if opts.add_background_music ∧ opts.background_music_path.isSome then
         (if musOk then musFx v2 else v2)
       else v2) := by
  refine ⟨rfl, rfl, rfl, ?_⟩
  simp [_enhance_video, add_subtitles_stage, add_transitions_stage,
    add_background_music_stage]

/-- Claim C9 (counterexample): a failing run — the empty script yields
zero chunks, so audio generation produces nothing and the run raises
into the `except` branch — performs neither the statistics update nor
the temp cleanup, contradicting "both actions run on both paths". -/
theorem claim_C9_counterexample :
    (generate_from_script defaultSPConfig defaultGenerationOptions allOkOracles
        "" "out.mp4").success = false ∧
    RunEvent.updateStats ∉ (generate_from_script defaultSPConfig
        defaultGenerationOptions allOkOracles "" "out.mp4").events ∧
    RunEvent.cleanup ∉ (generate_from_script defaultSPConfig
        defaultGenerationOptions allOkOracles "" "out.mp4").events := by decide

/-- Claim C9 (amended): the statistics update and the scoped temp
cleanup run exactly on the success path — a successful run performs
both (in that order), a failed run performs neither, because both
calls sit inside the `try` block before the success return and the
`except` branch returns immediately. -/
theorem claim_C9_amended (cfg : SPConfig) (opts : GenerationOptions)
    (o : RunOracles) (script out : String) :
    ((generate_from_script cfg opts o script out).success = true →
      (generate_from_script cfg opts o script out).events =
        [RunEvent.updateStats, RunEvent.cleanup]) ∧
    ((generate_from_script cfg opts o script out).success = false →
      (generate_from_script cfg opts o script out).events = []) := by
  simp only [generate_from_script, pipeline_from_chunks]
  cases parse_script cfg script opts.chunk_duration with
  | nil => simp [_generate_audio_for_chunks, failResult]
  | cons c cs => simp [_generate_audio_for_chunks, failResult]

/-- Claim C9 (witness): the amended statement applied to the concrete
failing empty-script run — no completion action is performed. -/
theorem claim_C9_amended_witness :
    (generate_from_script defaultSPConfig defaultGenerationOptions allOkOracles
        "" "out.mp4").events = [] :=
  (claim_C9_amended defaultSPConfig defaultGenerationOptions allOkOracles
    "" "out.mp4").2 (by decide)

/-- Claim C10 (counterexample): segmentation of
"Hello world. This is a test." under the default configuration yields
exactly ONE scene, not the two the claim asserts — `_clean_script`
collapses every whitespace run (newlines included) to single spaces
before `_split_paragraphs` splits on newlines, and nothing splits on
the period. -/
theorem claim_C10_counterexample :
    ((parse_script defaultSPConfig helloScript 300).map
        (fun c => c.scenes.length)).sum = 1 ∧
    ((parse_script defaultSPConfig helloScript 300).map
        (fun c => c.scenes.length)).sum ≠ 2 := by
  rw [parse_hello]
  decide

/-- Claim C10 (amended): the script "Hello world. This is a test."
segments into exactly one scene in one chunk (the period does not
split paragraphs), and `generate_from_script` on it does NOT succeed:
the audio step raises `KeyError('text_to_speech')` on that one chunk
(its call site reads the absent `config['text_to_speech']` and passes
`language`/`rate` arguments `generate_speech` rejects), so the run
returns `success = False` with that error and no `chunks_processed`. -/
theorem claim_C10_amended :
    (parse_script defaultSPConfig helloScript 300).length = 1 ∧
    ((parse_script defaultSPConfig helloScript 300).map
        (fun c => c.scenes.length)).sum = 1 ∧
    (generate_from_script defaultSPConfig defaultGenerationOptions allOkOracles
        helloScript "out.mp4").success = false ∧
    (generate_from_script defaultSPConfig defaultGenerationOptions allOkOracles
        helloScript "out.mp4").error = some "'text_to_speech'" ∧
    (generate_from_script defaultSPConfig defaultGenerationOptions allOkOracles
        helloScript "out.mp4").chunks_processed = none := by
  simp only [generate_from_script, defaultGenerationOptions]
  rw [parse_hello]
  decide

end AVG
